import Mathlib

/-!
Shallow embedding of the CCLab-api backend (src/main.py, src/models.py,
src/database.py, src/schemas.py, src/security.py).

Conventions of the embedding:
- SQLAlchemy tables become lists of records inside a `DB` structure; a
  committed transaction is one functional update of the `DB` value.
- `datetime` values become `Int` timestamps on one common timeline.
- Python `float` columns (lat, lon, soc) become `ℚ`.
- The autoincrement integer primary keys of `signal_logs` and
  `fuel_station_cache`, which no endpoint logic reads, are omitted from
  their records; `users.id` and the device rows are kept because
  registration derives the device code from the new user id.
- A Python exception that leaves a handler is an `Except.error` result;
  the HTTP dispatch layer is out of scope.
- `secrets.token_hex(16)` and the Argon2 hash are opaque effects, passed
  in as explicit arguments (`genKey`, `hash`).
- models.py evaluates `datetime.now(timezone.utc)` ONCE, when the class
  body of `SignalLog` / `FuelStationCache` runs (module load); the column
  defaults are therefore one fixed constant, modelled as the parameter
  `mlt` (module load time) threaded to every insert.
-/

namespace CCLab

/-- models.py `User`: id, unique email, hashed_password. -/
structure UserRec where
  id : Nat
  email : String
  hashed_password : String
  deriving Repr, DecidableEq

/-- models.py `Device`: device_id (device code), api_key, user_id.
The optional meta fields `name`/`model` default per models.py. -/
structure DeviceRec where
  id : Nat
  device_id : String
  api_key : String
  user_id : Nat
  name : String := "My Device"
  model : Option String := none
  deriving Repr, DecidableEq

/-- models.py `SignalLog`: device_id, lat, lon, soc, device-reported time,
server received_at (column default = the module-load constant). -/
structure SignalLogRec where
  device_id : String
  lat : ℚ
  lon : ℚ
  soc : ℚ
  time : Int
  received_at : Int
  deriving Repr, DecidableEq

/-- models.py `FuelStationCache`: device_id, name, lat, lon, vicinity,
cached_at (column default = the module-load constant). -/
structure FuelStationCacheRec where
  device_id : String
  name : String
  lat : ℚ
  lon : ℚ
  vicinity : String
  cached_at : Int
  deriving Repr, DecidableEq

/-- The four tables of user_data.db. -/
structure DB where
  users : List UserRec
  devices : List DeviceRec
  signal_logs : List SignalLogRec
  fuel_station_cache : List FuelStationCacheRec
  deriving Repr, DecidableEq

/-- The freshly created database (database.py `create_db_and_tables`). -/
def emptyDB : DB := ⟨[], [], [], []⟩

/-- Errors a handler can surface. `unauthorized`/`badRequest`/`notFound`
carry the `detail` string of the HTTPException raised in main.py;
`validation` is pydantic rejecting the request body; `upstreamUnavailable`
is the `requests` exception escaping the handler after
`response.raise_for_status()` or the transport call itself fails. -/
inductive ApiError where
  | unauthorized (detail : String)
  | badRequest (detail : String)
  | notFound (detail : String)
  | validation
  | upstreamUnavailable
  deriving Repr, DecidableEq

/-- main.py `DeviceSignal` request body, before pydantic field validation
(`soc` carries `ge=0, le=100` constraints, checked in `validateSignal`). -/
structure DeviceSignal where
  lat : ℚ
  lon : ℚ
  soc : ℚ
  time : Int
  deriving Repr, DecidableEq

/-- pydantic validation of `DeviceSignal.soc`: `Field(..., ge=0, le=100)`.
Runs before the handler body, hence before any write. -/
def validateSignal (sig : DeviceSignal) : Except ApiError DeviceSignal :=
  if sig.soc < 0 then .error .validation
  else if 100 < sig.soc then .error .validation
  else .ok sig

/-- SQLite assigns INTEGER PRIMARY KEY as (max existing id) + 1. -/
def nextUserId (db : DB) : Nat :=
  (db.users.map UserRec.id).foldr max 0 + 1

def nextDeviceId (db : DB) : Nat :=
  (db.devices.map DeviceRec.id).foldr max 0 + 1

/-- Python `f"DEV_{new_user.id:04d}"`: decimal, zero-padded to width 4. -/
def pad4 (n : Nat) : String :=
  let s := toString n
  String.mk (List.replicate (4 - s.length) '0') ++ s

def deviceCodeOf (uid : Nat) : String := "DEV_" ++ pad4 uid

/-- schemas.py `RegisterResponse` payload fields actually returned. -/
structure RegisterResponse where
  user_id : Nat
  user_email : String
  device_id : String
  api_key : String
  deriving Repr, DecidableEq

/-- main.py `register_user`: reject duplicate email with 400 (raised before
any insert, so the store is unchanged), else create the User and its Device
(code `DEV_{id:04d}`, api_key = the fresh token) in one transaction — one
commit covers both inserts. Returns the handler result paired with the
database state the call leaves behind. -/
def register_user (email password : String) (hash : String → String)
    (genKey : String) (db : DB) : Except ApiError RegisterResponse × DB :=
  match db.users.find? (fun u => u.email == email) with
  | some _ => (.error (.badRequest "Email already registered"), db)
  | none =>
    let uid := nextUserId db
    let new_user : UserRec := ⟨uid, email, hash password⟩
    let device : DeviceRec :=
      { id := nextDeviceId db, device_id := deviceCodeOf uid,
        api_key := genKey, user_id := uid }
    (.ok ⟨uid, email, device.device_id, device.api_key⟩,
     { db with users := db.users ++ [new_user],
               devices := db.devices ++ [device] })

/-- main.py `get_device_from_api_key`: `if not x_api_key` (absent header or
empty string) → 401 "Missing API key"; exact-match select on
`Device.api_key` (a unique indexed column); no row → 401 "Invalid API key". -/
def get_device_from_api_key (x_api_key : Option String) (db : DB) :
    Except ApiError DeviceRec :=
  match x_api_key with
  | none => .error (.unauthorized "Missing API key")
  | some k =>
    if k == "" then .error (.unauthorized "Missing API key")
    else
      match db.devices.find? (fun d => d.api_key == k) with
      | none => .error (.unauthorized "Invalid API key")
      | some d => .ok d

/-- One GeoJSON feature of the Geoapify places response:
`properties.name`, `properties.formatted`, `geometry.coordinates`
(GeoJSON order: longitude first). `none` = key absent. -/
structure Feature where
  name : Option String
  formatted : Option String
  coordinates : Option (ℚ × ℚ)
  deriving Repr, DecidableEq

/-- One entry of `target_results` in main.py `fuel_alert`. -/
structure Target where
  name : String
  lat : ℚ
  lon : ℚ
  vicinity : String
  deriving Repr, DecidableEq

/-- The loop body over `data.get("features", [])`: keep a feature only if
`"coordinates" in geom and props.get("name")` — i.e. the coordinate pair is
present AND the name is present and non-empty (Python truthiness); unpack
`lon, lat = geom["coordinates"]`; `vicinity = props.get("formatted",
"Address N/A")`. -/
def transformFeature (f : Feature) : Option Target :=
  match f.coordinates, f.name with
  | some (lon, lat), some n =>
    if n == "" then none
    else some ⟨n, lat, lon, f.formatted.getD "Address N/A"⟩
  | _, _ => none

/-- The query parameters main.py sends to the places API. -/
structure PlacesParams where
  categories : String
  bias : String
  limit : Nat
  apiKey : Option String
  deriving Repr, DecidableEq

/-- main.py `params` for the Geoapify request. -/
def placesParams (sig : DeviceSignal) (geoKey : Option String) : PlacesParams :=
  { categories := "service.vehicle.fuel",
    bias := "proximity:" ++ toString sig.lon ++ "," ++ toString sig.lat,
    limit := 5,
    apiKey := geoKey }

/-- The SignalLog row `fuel_alert` inserts: `received_at` is the column
default, i.e. the module-load constant `mlt`. -/
def mkSignalLog (mlt : Int) (dev : String) (sig : DeviceSignal) : SignalLogRec :=
  ⟨dev, sig.lat, sig.lon, sig.soc, sig.time, mlt⟩

/-- The FuelStationCache row `fuel_alert` inserts for one target:
`cached_at` is the column default, the module-load constant `mlt`. -/
def mkCacheRow (mlt : Int) (dev : String) (t : Target) : FuelStationCacheRec :=
  ⟨dev, t.name, t.lat, t.lon, t.vicinity, mlt⟩

/-- main.py `fuel_alert`. Steps in source order: resolve the device from
the X-API-Key header (dependency), validate the body, insert + COMMIT the
SignalLog, call the places API (`upstream` stands for that call's result;
on exception it escapes the handler, the committed log stays), transform
the features, then DELETE the device's old cache rows and insert the new
ones under ONE commit. Returns the handler's result paired with the
database state the call leaves behind. -/
def fuel_alert (mlt : Int) (x_api_key : Option String) (sig : DeviceSignal)
    (upstream : Except Unit (List Feature)) (db : DB) :
    Except ApiError (List Target) × DB :=
  match get_device_from_api_key x_api_key db with
  | .error e => (.error e, db)
  | .ok device =>
    match validateSignal sig with
    | .error e => (.error e, db)
    | .ok _ =>
      let log := mkSignalLog mlt device.device_id sig
      let db1 : DB := { db with signal_logs := db.signal_logs ++ [log] }
      match upstream with
      | .error _ => (.error .upstreamUnavailable, db1)
      | .ok features =>
        let target_results := features.filterMap transformFeature
        let kept :=
          db1.fuel_station_cache.filter
            (fun r => !(r.device_id == device.device_id))
        let db2 : DB :=
          { db1 with fuel_station_cache :=
              kept ++ target_results.map (mkCacheRow mlt device.device_id) }
        (.ok target_results, db2)

/-- One sweep of `cleanup_old_signals_loop`:
`DELETE FROM signal_logs WHERE received_at < datetime('now', '-1 day')`. -/
def cleanup_old_signals (now : Int) (db : DB) : DB :=
  { db with signal_logs :=
      db.signal_logs.filter (fun r => !decide (r.received_at < now - 86400)) }

/-- One sweep of `cleanup_old_cache_loop`:
`DELETE FROM fuel_station_cache WHERE cached_at < datetime('now', '-1 day')`. -/
def cleanup_old_cache (now : Int) (db : DB) : DB :=
  { db with fuel_station_cache :=
      db.fuel_station_cache.filter (fun r => !decide (r.cached_at < now - 86400)) }

/-- main.py `get_latest_signal` (`GET /api/v1/device/latest`): resolve the
authenticated user's device (404 "No device linked to this user" if none),
then `select(SignalLog).where(device_id).order_by(SignalLog.time.desc())
.limit(1)` (404 "No signals received yet" if none). `pickLatest` realises
ORDER BY time DESC LIMIT 1: the first row of maximal `time`. -/
def pickLatest : List SignalLogRec → Option SignalLogRec
  | [] => none
  | l :: ls =>
    match pickLatest ls with
    | none => some l
    | some m => if l.time < m.time then some m else some l

def signalsFor (dev : String) (db : DB) : List SignalLogRec :=
  db.signal_logs.filter (fun l => l.device_id == dev)

def get_latest_signal (user : UserRec) (db : DB) :
    Except ApiError SignalLogRec :=
  match db.devices.find? (fun d => d.user_id == user.id) with
  | none => .error (.notFound "No device linked to this user")
  | some device =>
    match pickLatest (signalsFor device.device_id db) with
    | none => .error (.notFound "No signals received yet")
    | some latest_log => .ok latest_log

/-- All cache rows of one device (`TargetCache.latest` read set). -/
def cacheFor (dev : String) (db : DB) : List FuelStationCacheRec :=
  db.fuel_station_cache.filter (fun r => r.device_id == dev)

/-- main.py `get_latest_stations` (`GET /api/v1/device/stations`). -/
def get_latest_stations (user : UserRec) (db : DB) :
    Except ApiError (List FuelStationCacheRec) :=
  match db.devices.find? (fun d => d.user_id == user.id) with
  | none => .error (.notFound "No device linked to this user")
  | some device =>
    let stations := cacheFor device.device_id db
    if stations.isEmpty then .error (.notFound "No cached stations found")
    else .ok stations

/-- One iteration of `cleanup_old_signals_loop` / `cleanup_old_cache_loop`:
either the DELETE+commit succeeds at wall time `now` (`some now`), or the
store raises (`none`).  The loop bodies in main.py contain NO try/except,
so an exception escapes the `while True` and the asyncio task ends: the
run of the loop over a list of iteration outcomes returns `none` (task
dead) as soon as one iteration fails, and the remaining iterations never
execute. -/
def cleanup_loop_run (sweep : Int → DB → DB) :
    List (Option Int) → DB → Option DB
  | [], db => some db
  | some now :: rest, db => cleanup_loop_run sweep rest (sweep now db)
  | none :: _, _ => none

/-- The transition system of the service: one step is one committed unit of
work against user_data.db. `mlt` is the module-load constant used by the
`received_at`/`cached_at` column defaults. -/
inductive Step (mlt : Int) : DB → DB → Prop
  | register {db db' : DB} (email password genKey : String)
      (hash : String → String) (r : Except ApiError RegisterResponse) :
      register_user email password hash genKey db = (r, db') →
      Step mlt db db'
  | signalCommit {db db' : DB} (key : Option String) (sig : DeviceSignal)
      (upstream : Except Unit (List Feature))
      (r : Except ApiError (List Target)) :
      fuel_alert mlt key sig upstream db = (r, db') → Step mlt db db'
  | sweepSignals (now : Int) (db : DB) :
      Step mlt db (cleanup_old_signals now db)
  | sweepCache (now : Int) (db : DB) :
      Step mlt db (cleanup_old_cache now db)

/-- States reachable from the freshly created database. -/
def Reachable (mlt : Int) (db : DB) : Prop :=
  Relation.ReflTransGen (Step mlt) emptyDB db

/-! ## Sample concrete data, used by witnesses -/

def sampleHash (p : String) : String := "argon2:" ++ p

def sampleUser : UserRec := ⟨1, "a@x.com", "argon2:password123"⟩

def sampleDevice : DeviceRec :=
  { id := 1, device_id := "DEV_0001", api_key := "k1", user_id := 1 }

/-- The database right after one successful registration. -/
def sampleDB1 : DB := ⟨[sampleUser], [sampleDevice], [], []⟩

def sampleSig : DeviceSignal := ⟨10, 20, 50, 1000⟩

def sampleFeature : Feature := ⟨some "Shell", none, some (20, 10)⟩

def sampleTarget : Target := ⟨"Shell", 10, 20, "Address N/A"⟩

/-- The database after the registration and one successful fuel alert. -/
def sampleDB2 : DB :=
  ⟨[sampleUser], [sampleDevice],
   [mkSignalLog 0 "DEV_0001" sampleSig],
   [mkCacheRow 0 "DEV_0001" sampleTarget]⟩

lemma sampleDB1_reachable : Reachable 0 sampleDB1 :=
  Relation.ReflTransGen.single
    (Step.register "a@x.com" "password123" "k1" sampleHash
      (.ok ⟨1, "a@x.com", "DEV_0001", "k1"⟩) (by rfl))

lemma sampleDB2_reachable : Reachable 0 sampleDB2 :=
  sampleDB1_reachable.tail
    (Step.signalCommit (some "k1") sampleSig (.ok [sampleFeature])
      (.ok [sampleTarget]) (by rfl))

/-! ## Structural lemmas -/

lemma validateSignal_error {sig : DeviceSignal} {e : ApiError}
    (h : validateSignal sig = .error e) :
    e = .validation ∧ (sig.soc < 0 ∨ 100 < sig.soc) := by
  unfold validateSignal at h
  split at h
  · refine ⟨?_, Or.inl (by assumption)⟩
    injection h with h1
    exact h1.symm
  · split at h
    · refine ⟨?_, Or.inr (by assumption)⟩
      injection h with h1
      exact h1.symm
    · cases h

lemma validateSignal_ok {sig s : DeviceSignal}
    (h : validateSignal sig = .ok s) :
    s = sig ∧ 0 ≤ sig.soc ∧ sig.soc ≤ 100 := by
  unfold validateSignal at h
  split at h
  · cases h
  · split at h
    · cases h
    · refine ⟨?_, le_of_not_lt (by assumption), le_of_not_lt (by assumption)⟩
      injection h with h1
      exact h1.symm

lemma validateSignal_ok_of_bounds {sig : DeviceSignal}
    (h0 : 0 ≤ sig.soc) (h100 : sig.soc ≤ 100) :
    validateSignal sig = .ok sig := by
  unfold validateSignal
  rw [if_neg (not_lt.mpr h0), if_neg (not_lt.mpr h100)]

/-- The state fuel_alert leaves after the signal-log commit. -/
def afterSignal (mlt : Int) (dev : String) (sig : DeviceSignal) (db : DB) : DB :=
  { db with signal_logs := db.signal_logs ++ [mkSignalLog mlt dev sig] }

/-- The state fuel_alert leaves after the cache-replacement commit. -/
def afterReplace (mlt : Int) (dev : String) (ts : List Target) (db : DB) : DB :=
  { db with fuel_station_cache :=
      db.fuel_station_cache.filter (fun r => !(r.device_id == dev))
      ++ ts.map (mkCacheRow mlt dev) }

/-- Full case analysis of `fuel_alert`, matching the source's control flow. -/
lemma fuel_alert_cases (mlt : Int) (key : Option String) (sig : DeviceSignal)
    (up : Except Unit (List Feature)) (db : DB) :
    (∃ e, get_device_from_api_key key db = .error e ∧
        fuel_alert mlt key sig up db = (.error e, db)) ∨
    (∃ device, get_device_from_api_key key db = .ok device ∧
      ((validateSignal sig = .error .validation ∧
          fuel_alert mlt key sig up db = (.error .validation, db)) ∨
       (validateSignal sig = .ok sig ∧
         ((up = .error () ∧
             fuel_alert mlt key sig up db =
               (.error .upstreamUnavailable,
                afterSignal mlt device.device_id sig db)) ∨
          (∃ feats, up = .ok feats ∧
             fuel_alert mlt key sig up db =
               (.ok (feats.filterMap transformFeature),
                afterReplace mlt device.device_id
                  (feats.filterMap transformFeature)
                  (afterSignal mlt device.device_id sig db))))))) := by
  cases hauth : get_device_from_api_key key db with
  | error e =>
    exact Or.inl ⟨e, rfl, by simp [fuel_alert, hauth]⟩
  | ok device =>
    refine Or.inr ⟨device, rfl, ?_⟩
    cases hval : validateSignal sig with
    | error e =>
      obtain ⟨he, _⟩ := validateSignal_error hval
      subst he
      exact Or.inl ⟨rfl, by simp [fuel_alert, hauth, hval]⟩
    | ok s =>
      obtain ⟨hs, h0, h100⟩ := validateSignal_ok hval
      have hok : validateSignal sig = .ok sig := validateSignal_ok_of_bounds h0 h100
      refine Or.inr ⟨by rw [hs], ?_⟩
      cases up with
      | error u =>
        cases u
        exact Or.inl ⟨rfl,
          by simp [fuel_alert, hauth, hok, afterSignal, mkSignalLog]⟩
      | ok feats =>
        refine Or.inr ⟨feats, rfl, ?_⟩
        simp [fuel_alert, hauth, hok, afterSignal, afterReplace, mkSignalLog]

lemma pickLatest_eq_none {l : List SignalLogRec} :
    pickLatest l = none ↔ l = [] := by
  cases l with
  | nil => simp [pickLatest]
  | cons a as =>
    simp only [pickLatest]
    constructor
    · intro h
      cases hrec : pickLatest as with
      | none =>
        simp only [hrec] at h
        cases h
      | some m =>
        simp only [hrec] at h
        by_cases hlt : a.time < m.time
        · rw [if_pos hlt] at h
          cases h
        · rw [if_neg hlt] at h
          cases h
    · intro h
      exact absurd h (List.cons_ne_nil a as)

lemma pickLatest_mem_max :
    ∀ (l : List SignalLogRec) (m : SignalLogRec), pickLatest l = some m →
      m ∈ l ∧ ∀ x ∈ l, x.time ≤ m.time := by
  intro l
  induction l with
  | nil =>
    intro m h
    cases h
  | cons a as ih =>
    intro m h
    simp only [pickLatest] at h
    cases hrec : pickLatest as with
    | none =>
      simp only [hrec] at h
      injection h with h1
      subst h1
      have hnil : as = [] := pickLatest_eq_none.mp hrec
      subst hnil
      simp
    | some m2 =>
      simp only [hrec] at h
      obtain ⟨hmem, hmax⟩ := ih m2 hrec
      by_cases hlt : a.time < m2.time
      · rw [if_pos hlt] at h
        injection h with h1
        subst h1
        refine ⟨List.mem_cons_of_mem _ hmem, ?_⟩
        intro x hx
        rcases List.mem_cons.mp hx with hx | hx
        · subst hx
          exact le_of_lt hlt
        · exact hmax x hx
      · rw [if_neg hlt] at h
        injection h with h1
        subst h1
        refine ⟨List.mem_cons_self _ _, ?_⟩
        intro x hx
        rcases List.mem_cons.mp hx with hx | hx
        · subst hx
          exact le_rfl
        · exact le_trans (hmax x hx) (le_of_not_lt hlt)

/-! ## Reachability invariant -/

/-- The invariant every reachable database state satisfies: all
`received_at`/`cached_at` values equal the module-load constant, and user
rows and device rows exist in lockstep (registration is atomic). -/
def GoodState (mlt : Int) (db : DB) : Prop :=
  (∀ r ∈ db.signal_logs, r.received_at = mlt) ∧
  (∀ r ∈ db.fuel_station_cache, r.cached_at = mlt) ∧
  (∀ u ∈ db.users, ∃ d ∈ db.devices, d.user_id = u.id) ∧
  (∀ d ∈ db.devices, ∃ u ∈ db.users, u.id = d.user_id)

lemma goodState_empty (mlt : Int) : GoodState mlt emptyDB := by
  refine ⟨?_, ?_, ?_, ?_⟩ <;> intro r hr <;> cases hr

/-- Either the register call rejects and leaves the store unchanged, or it
appends one user and its one linked device. -/
lemma register_user_cases (email password : String) (hash : String → String)
    (genKey : String) (db : DB) :
    ((∃ u ∈ db.users, u.email = email) ∧
       register_user email password hash genKey db =
         (.error (.badRequest "Email already registered"), db)) ∨
    ((∀ u ∈ db.users, u.email ≠ email) ∧
       register_user email password hash genKey db =
         (.ok ⟨nextUserId db, email, deviceCodeOf (nextUserId db), genKey⟩,
          { db with
              users := db.users ++ [⟨nextUserId db, email, hash password⟩],
              devices := db.devices ++
                [{ id := nextDeviceId db,
                   device_id := deviceCodeOf (nextUserId db),
                   api_key := genKey, user_id := nextUserId db }] })) := by
  cases hfind : db.users.find? (fun u => u.email == email) with
  | none =>
    refine Or.inr ⟨?_, by simp [register_user, hfind]⟩
    intro u hu
    have := List.find?_eq_none.mp hfind u hu
    simpa using this
  | some u =>
    refine Or.inl ⟨⟨u, List.mem_of_find?_eq_some hfind, ?_⟩,
      by simp [register_user, hfind]⟩
    have := List.find?_some hfind
    simpa using this

lemma step_goodState {mlt : Int} {db db' : DB} (hstep : Step mlt db db')
    (h : GoodState mlt db) : GoodState mlt db' := by
  obtain ⟨hsig, hcache, hud, hdu⟩ := h
  cases hstep with
  | register email password genKey hash r heq =>
    rcases register_user_cases email password hash genKey db with
      ⟨_, heq2⟩ | ⟨_, heq2⟩ <;> rw [heq2] at heq <;>
      injection heq with h1 h2 <;> subst h2
    · exact ⟨hsig, hcache, hud, hdu⟩
    · refine ⟨hsig, hcache, ?_, ?_⟩
      · intro u hu
        rcases List.mem_append.mp hu with hu | hu
        · obtain ⟨d, hd, hlink⟩ := hud u hu
          exact ⟨d, List.mem_append_left _ hd, hlink⟩
        · refine ⟨_, List.mem_append_right _ (List.mem_singleton_self _), ?_⟩
          simp at hu
          rw [hu]
      · intro d hd
        rcases List.mem_append.mp hd with hd | hd
        · obtain ⟨u, hu, hlink⟩ := hdu d hd
          exact ⟨u, List.mem_append_left _ hu, hlink⟩
        · refine ⟨_, List.mem_append_right _ (List.mem_singleton_self _), ?_⟩
          simp at hd
          rw [hd]
  | signalCommit key sig up r heq =>
    rcases fuel_alert_cases mlt key sig up db with
      ⟨e, _, heq2⟩ |
      ⟨device, _, ⟨_, heq2⟩ | ⟨_, ⟨_, heq2⟩ | ⟨feats, hup, heq2⟩⟩⟩ <;>
      rw [heq2] at heq <;> injection heq with h1 h2 <;> subst h2
    · exact ⟨hsig, hcache, hud, hdu⟩
    · exact ⟨hsig, hcache, hud, hdu⟩
    · refine ⟨?_, hcache, hud, hdu⟩
      simp only [afterSignal]
      intro x hx
      rcases List.mem_append.mp hx with hx | hx
      · exact hsig x hx
      · simp at hx
        rw [hx]
        rfl
    · refine ⟨?_, ?_, hud, hdu⟩
      · simp only [afterReplace, afterSignal]
        intro x hx
        rcases List.mem_append.mp hx with hx | hx
        · exact hsig x hx
        · simp at hx
          rw [hx]
          rfl
      · simp only [afterReplace, afterSignal]
        intro x hx
        rcases List.mem_append.mp hx with hx | hx
        · exact hcache x (List.mem_of_mem_filter hx)
        · obtain ⟨t, _, hx⟩ := List.mem_map.mp hx
          rw [← hx]
          rfl
  | sweepSignals now =>
    refine ⟨?_, hcache, hud, hdu⟩
    intro x hx
    exact hsig x (List.mem_of_mem_filter hx)
  | sweepCache now =>
    refine ⟨hsig, ?_, hud, hdu⟩
    intro x hx
    exact hcache x (List.mem_of_mem_filter hx)

lemma reachable_goodState {mlt : Int} {db : DB} (h : Reachable mlt db) :
    GoodState mlt db := by
  unfold Reachable at h
  induction h with
  | refl => exact goodState_empty mlt
  | tail _ hstep ih => exact step_goodState hstep ih

lemma cacheFor_afterReplace_self (mlt : Int) (dev : String)
    (ts : List Target) (db : DB) :
    cacheFor dev (afterReplace mlt dev ts db) = ts.map (mkCacheRow mlt dev) := by
  unfold cacheFor afterReplace
  rw [List.filter_append]
  have h1 : (db.fuel_station_cache.filter (fun r => !(r.device_id == dev))).filter
      (fun r => r.device_id == dev) = [] := by
    rw [List.filter_eq_nil_iff]
    intro a ha
    have h2 := (List.mem_filter.mp ha).2
    simp at h2 ⊢
    exact h2
  have h3 : (ts.map (mkCacheRow mlt dev)).filter (fun r => r.device_id == dev)
      = ts.map (mkCacheRow mlt dev) := by
    rw [List.filter_eq_self]
    intro a ha
    obtain ⟨t, _, hteq⟩ := List.mem_map.mp ha
    rw [← hteq]
    simp [mkCacheRow]
  rw [h1, h3, List.nil_append]

lemma cacheFor_afterReplace_other (mlt : Int) {dev d : String} (hne : d ≠ dev)
    (ts : List Target) (db : DB) :
    cacheFor d (afterReplace mlt dev ts db) = cacheFor d db := by
  unfold cacheFor afterReplace
  rw [List.filter_append]
  have h2 : (ts.map (mkCacheRow mlt dev)).filter (fun r => r.device_id == d)
      = [] := by
    rw [List.filter_eq_nil_iff]
    intro a ha
    obtain ⟨t, _, hteq⟩ := List.mem_map.mp ha
    rw [← hteq]
    simp [mkCacheRow]
    exact fun h => hne h.symm
  have h1 : (db.fuel_station_cache.filter (fun r => !(r.device_id == dev))).filter
      (fun r => r.device_id == d)
      = db.fuel_station_cache.filter (fun r => r.device_id == d) := by
    rw [List.filter_filter]
    apply List.filter_congr
    intro a _
    by_cases h : a.device_id = d
    · subst h
      simp [hne]
    · simp [h]
  rw [h1, h2, List.append_nil]

lemma cacheFor_afterSignal (mlt : Int) (dev d : String) (sig : DeviceSignal)
    (db : DB) : cacheFor d (afterSignal mlt dev sig db) = cacheFor d db := rfl

/-! ## Claim theorems -/

/-- C1: in every reachable database state, all FuelStationCache rows of one
device share the same cache timestamp (one cache generation), and a
successful fuel-alert ingest replaces the authenticated device's entire
cached set as a unit under one commit: afterwards the device's rows are
exactly the new target list and every other device's rows are untouched. -/
theorem C1_cache_single_generation (mlt : Int) (db : DB)
    (h : Reachable mlt db) :
    (∀ r ∈ db.fuel_station_cache, ∀ s ∈ db.fuel_station_cache,
        r.device_id = s.device_id → r.cached_at = s.cached_at) ∧
    (∀ key sig feats targets db2,
        fuel_alert mlt key sig (.ok feats) db = (.ok targets, db2) →
        ∃ device, get_device_from_api_key key db = .ok device ∧
          cacheFor device.device_id db2 =
            targets.map (mkCacheRow mlt device.device_id) ∧
          ∀ d, d ≠ device.device_id → cacheFor d db2 = cacheFor d db) := by
  obtain ⟨hsig, hcache, _, _⟩ := reachable_goodState h
  constructor
  · intro r hr s hs _
    rw [hcache r hr, hcache s hs]
  · intro key sig feats targets db2 heq
    rcases fuel_alert_cases mlt key sig (.ok feats) db with
      ⟨e, hauth, heq2⟩ |
      ⟨device, hauth, ⟨hval, heq2⟩ | ⟨hval, ⟨hup, heq2⟩ | ⟨feats2, hup, heq2⟩⟩⟩
    · rw [heq2] at heq
      injection heq with h1 h2
      exact Except.noConfusion h1
    · rw [heq2] at heq
      injection heq with h1 h2
      exact Except.noConfusion h1
    · exact Except.noConfusion hup
    · injection hup with hfe
      subst hfe
      rw [heq2] at heq
      injection heq with h1 h2
      injection h1 with h1
      subst h1
      subst h2
      refine ⟨device, hauth, ?_, ?_⟩
      · rw [cacheFor_afterReplace_self]
      · intro d hd
        rw [cacheFor_afterReplace_other mlt hd, cacheFor_afterSignal]

theorem C1_cache_single_generation_witness :
    (∀ r ∈ sampleDB2.fuel_station_cache, ∀ s ∈ sampleDB2.fuel_station_cache,
        r.device_id = s.device_id → r.cached_at = s.cached_at) ∧
    cacheFor "DEV_0001" sampleDB2 = [mkCacheRow 0 "DEV_0001" sampleTarget] :=
  ⟨(C1_cache_single_generation 0 sampleDB2 sampleDB2_reachable).1, by decide⟩

/-- C10: the `received_at`/`cached_at` column defaults were evaluated once
at module load, so in every reachable state every SignalLog row's
received_at and every FuelStationCache row's cached_at equal the one
module-load constant `mlt`, whatever the insertion time; consequently a
retention sweep at wall time `now` deletes either every row (when the
process is older than 24h) or no row at all — it measures process age,
not row age. -/
theorem C10_timestamps_module_load_constant (mlt : Int) (db : DB)
    (h : Reachable mlt db) :
    (∀ r ∈ db.signal_logs, r.received_at = mlt) ∧
    (∀ r ∈ db.fuel_station_cache, r.cached_at = mlt) ∧
    (∀ now, mlt < now - 86400 →
        (cleanup_old_signals now db).signal_logs = [] ∧
        (cleanup_old_cache now db).fuel_station_cache = []) ∧
    (∀ now, ¬ mlt < now - 86400 →
        cleanup_old_signals now db = db ∧ cleanup_old_cache now db = db) := by
  obtain ⟨hsig, hcache, _, _⟩ := reachable_goodState h
  refine ⟨hsig, hcache, ?_, ?_⟩
  · intro now hold
    constructor
    · unfold cleanup_old_signals
      rw [List.filter_eq_nil_iff]
      intro a ha
      simp [hsig a ha, hold]
    · unfold cleanup_old_cache
      rw [List.filter_eq_nil_iff]
      intro a ha
      simp [hcache a ha, hold]
  · intro now hyoung
    constructor
    · unfold cleanup_old_signals
      have heq : db.signal_logs.filter
          (fun r => !decide (r.received_at < now - 86400)) = db.signal_logs := by
        rw [List.filter_eq_self]
        intro a ha
        simp [hsig a ha, hyoung]
      rw [heq]
    · unfold cleanup_old_cache
      have heq : db.fuel_station_cache.filter
          (fun r => !decide (r.cached_at < now - 86400)) = db.fuel_station_cache := by
        rw [List.filter_eq_self]
        intro a ha
        simp [hcache a ha, hyoung]
      rw [heq]

theorem C10_timestamps_module_load_constant_witness :
    (∀ r ∈ sampleDB2.signal_logs, r.received_at = 0) ∧
    cleanup_old_signals 100000 sampleDB2 =
      { sampleDB2 with signal_logs := [] } :=
  ⟨(C10_timestamps_module_load_constant 0 sampleDB2 sampleDB2_reachable).1,
   by decide⟩

/-- C2: when the external places lookup fails (the `requests` call or
`raise_for_status` raises), the fuel-alert call surfaces the upstream
failure to the caller, the SignalRecord committed earlier in the same call
is retained, and the device's previously cached rows (and every other
table) are left completely unchanged. -/
theorem C2_upstream_failure_retains_signal (mlt : Int) (key : Option String)
    (sig : DeviceSignal) (db : DB) (device : DeviceRec)
    (hauth : get_device_from_api_key key db = .ok device)
    (hval : validateSignal sig = .ok sig) :
    fuel_alert mlt key sig (.error ()) db =
      (.error .upstreamUnavailable, afterSignal mlt device.device_id sig db) ∧
    (afterSignal mlt device.device_id sig db).signal_logs =
      db.signal_logs ++ [mkSignalLog mlt device.device_id sig] ∧
    (afterSignal mlt device.device_id sig db).fuel_station_cache =
      db.fuel_station_cache ∧
    (afterSignal mlt device.device_id sig db).users = db.users ∧
    (afterSignal mlt device.device_id sig db).devices = db.devices := by
  refine ⟨?_, rfl, rfl, rfl, rfl⟩
  simp [fuel_alert, hauth, hval, afterSignal, mkSignalLog]

theorem C2_upstream_failure_retains_signal_witness :
    fuel_alert 0 (some "k1") sampleSig (.error ()) sampleDB1 =
      (.error .upstreamUnavailable, afterSignal 0 "DEV_0001" sampleSig sampleDB1) ∧
    (afterSignal 0 "DEV_0001" sampleSig sampleDB1).fuel_station_cache =
      sampleDB1.fuel_station_cache :=
  ⟨(C2_upstream_failure_retains_signal 0 (some "k1") sampleSig sampleDB1
      sampleDevice (by rfl) (by rfl)).1,
   (C2_upstream_failure_retains_signal 0 (some "k1") sampleSig sampleDB1
      sampleDevice (by rfl) (by rfl)).2.2.1⟩

/-- C3: registration with an existing email fails with 400 "Email already
registered" and changes nothing; with a fresh email it creates the User
and its Device in the same transaction, with device code
`DEV_` + the zero-padded new user id and the freshly generated API key;
and in every reachable state a User row exists iff its linked Device row
exists. -/
theorem C3_register_atomic (mlt : Int) :
    (∀ email password hash genKey db,
        (∃ u ∈ db.users, u.email = email) →
        register_user email password hash genKey db =
          (.error (.badRequest "Email already registered"), db)) ∧
    (∀ email password hash genKey db,
        (∀ u ∈ db.users, u.email ≠ email) →
        register_user email password hash genKey db =
          (.ok ⟨nextUserId db, email, deviceCodeOf (nextUserId db), genKey⟩,
           { db with
               users := db.users ++ [⟨nextUserId db, email, hash password⟩],
               devices := db.devices ++
                 [{ id := nextDeviceId db,
                    device_id := deviceCodeOf (nextUserId db),
                    api_key := genKey, user_id := nextUserId db }] })) ∧
    (∀ db, Reachable mlt db →
        (∀ u ∈ db.users, ∃ d ∈ db.devices, d.user_id = u.id) ∧
        (∀ d ∈ db.devices, ∃ u ∈ db.users, u.id = d.user_id)) := by
  refine ⟨?_, ?_, ?_⟩
  · intro email password hash genKey db hdup
    rcases register_user_cases email password hash genKey db with
      ⟨_, heq⟩ | ⟨hall, _⟩
    · exact heq
    · obtain ⟨u, hu, he⟩ := hdup
      exact absurd he (hall u hu)
  · intro email password hash genKey db hfresh
    rcases register_user_cases email password hash genKey db with
      ⟨⟨u, hu, he⟩, _⟩ | ⟨_, heq⟩
    · exact absurd he (hfresh u hu)
    · exact heq
  · intro db h
    obtain ⟨_, _, hud, hdu⟩ := reachable_goodState h
    exact ⟨hud, hdu⟩

theorem C3_register_atomic_witness :
    register_user "a@x.com" "pw2" sampleHash "k2" sampleDB1 =
      (.error (.badRequest "Email already registered"), sampleDB1) ∧
    register_user "b@y.com" "password456" sampleHash "k2" sampleDB1 =
      (.ok ⟨2, "b@y.com", "DEV_0002", "k2"⟩,
       { sampleDB1 with
           users := sampleDB1.users ++ [⟨2, "b@y.com", "argon2:password456"⟩],
           devices := sampleDB1.devices ++
             [{ id := 2, device_id := "DEV_0002",
                api_key := "k2", user_id := 2 }] }) ∧
    (∀ u ∈ sampleDB1.users, ∃ d ∈ sampleDB1.devices, d.user_id = u.id) := by
  refine ⟨(C3_register_atomic 0).1 "a@x.com" "pw2" sampleHash "k2" sampleDB1
      ⟨sampleUser, by decide, by decide⟩, ?_, ?_⟩
  · have h := (C3_register_atomic 0).2.1 "b@y.com" "password456" sampleHash
      "k2" sampleDB1 (by decide)
    exact h
  · exact ((C3_register_atomic 0).2.2 sampleDB1 sampleDB1_reachable).1

/-- C4: a retention sweep retains exactly the SignalLog rows with
received_at within the last 24 hours (86400 s) and deletes the strictly
older ones, same for FuelStationCache on cached_at; a row exactly 24 hours
old is not strictly older, hence retained; each sweep leaves the other
table untouched. -/
theorem C4_retention_sweep_exact (now : Int) (db : DB) :
    (∀ r : SignalLogRec,
        r ∈ (cleanup_old_signals now db).signal_logs ↔
          r ∈ db.signal_logs ∧ now - 86400 ≤ r.received_at) ∧
    (∀ c : FuelStationCacheRec,
        c ∈ (cleanup_old_cache now db).fuel_station_cache ↔
          c ∈ db.fuel_station_cache ∧ now - 86400 ≤ c.cached_at) ∧
    (cleanup_old_signals now db).fuel_station_cache =
      db.fuel_station_cache ∧
    (cleanup_old_cache now db).signal_logs = db.signal_logs ∧
    (cleanup_old_signals now db).users = db.users ∧
    (cleanup_old_cache now db).users = db.users := by
  refine ⟨?_, ?_, rfl, rfl, rfl, rfl⟩
  · intro r
    unfold cleanup_old_signals
    rw [List.mem_filter]
    simp [not_lt]
  · intro c
    unfold cleanup_old_cache
    rw [List.mem_filter]
    simp [not_lt]

/-- C5 (refuting theorem): the cleanup loop bodies in main.py have no
try/except, so the first failing sweep iteration terminates the task (run
result `none`) and the later scheduled iterations never execute; only a
run in which every iteration succeeds continues indefinitely. The claim
that a sweep failure is caught and the loop continues is false of the
code. -/
theorem C5_cleanup_loop_dies_on_store_error :
    cleanup_loop_run cleanup_old_signals [some 100, none, some 200]
      emptyDB = none ∧
    cleanup_loop_run cleanup_old_cache [none] emptyDB = none ∧
    ∀ (times : List Int) (db : DB), ∃ db2,
      cleanup_loop_run cleanup_old_signals (times.map some) db = some db2 := by
  refine ⟨rfl, rfl, ?_⟩
  intro times
  induction times with
  | nil => exact fun db => ⟨db, rfl⟩
  | cons t ts ih => exact fun db => ih (cleanup_old_signals t db)

/-- C6: with the device authenticated, a signal whose soc is below 0 or
above 100 is rejected by pydantic validation before any write (the store
is unchanged and the handler returns the validation error), while a signal
with soc in [0, 100] passes validation and its SignalRecord is appended,
whatever the upstream call then does. -/
theorem C6_soc_bounds_gate_ingest (mlt : Int) (key : Option String)
    (sig : DeviceSignal) (up : Except Unit (List Feature)) (db : DB)
    (device : DeviceRec)
    (hauth : get_device_from_api_key key db = .ok device) :
    (sig.soc < 0 ∨ 100 < sig.soc →
        fuel_alert mlt key sig up db = (.error .validation, db)) ∧
    (0 ≤ sig.soc → sig.soc ≤ 100 →
        (fuel_alert mlt key sig up db).2.signal_logs =
          db.signal_logs ++ [mkSignalLog mlt device.device_id sig]) := by
  constructor
  · intro hbad
    have hval : validateSignal sig = .error .validation := by
      unfold validateSignal
      rcases hbad with h | h
      · rw [if_pos h]
      · rw [if_neg (not_lt.mpr (le_of_lt (lt_trans (by norm_num) h))),
          if_pos h]
    simp [fuel_alert, hauth, hval]
  · intro h0 h100
    have hval : validateSignal sig = .ok sig :=
      validateSignal_ok_of_bounds h0 h100
    cases up with
    | error u =>
      cases u
      simp [fuel_alert, hauth, hval, afterSignal, mkSignalLog]
    | ok feats =>
      simp [fuel_alert, hauth, hval, afterSignal, afterReplace, mkSignalLog]

theorem C6_soc_bounds_gate_ingest_witness :
    fuel_alert 0 (some "k1") ⟨10, 20, 101, 1000⟩ (.ok []) sampleDB1 =
      (.error .validation, sampleDB1) ∧
    (fuel_alert 0 (some "k1") sampleSig (.ok []) sampleDB1).2.signal_logs =
      sampleDB1.signal_logs ++ [mkSignalLog 0 "DEV_0001" sampleSig] :=
  ⟨(C6_soc_bounds_gate_ingest 0 (some "k1") ⟨10, 20, 101, 1000⟩ (.ok [])
      sampleDB1 sampleDevice (by rfl)).1 (Or.inr (by norm_num)),
   (C6_soc_bounds_gate_ingest 0 (some "k1") sampleSig (.ok [])
      sampleDB1 sampleDevice (by rfl)).2 (by decide) (by decide)⟩

/-- C7: device authentication returns 401 "Missing API key" when no key is
supplied, 401 "Invalid API key" when the key matches no device row (the
lookup is an exact match on the api_key column), and a fuel-alert request
whose authentication fails returns that error with the whole store
unchanged — in particular no SignalRecord is written. -/
theorem C7_device_auth_failures (mlt : Int) (sig : DeviceSignal)
    (up : Except Unit (List Feature)) (db : DB) :
    get_device_from_api_key none db =
      .error (.unauthorized "Missing API key") ∧
    (∀ k, k ≠ "" → (∀ d ∈ db.devices, d.api_key ≠ k) →
        get_device_from_api_key (some k) db =
          .error (.unauthorized "Invalid API key")) ∧
    (∀ k d, get_device_from_api_key (some k) db = .ok d →
        d ∈ db.devices ∧ d.api_key = k) ∧
    (∀ key e, get_device_from_api_key key db = .error e →
        fuel_alert mlt key sig up db = (.error e, db)) := by
  refine ⟨rfl, ?_, ?_, ?_⟩
  · intro k hk hnone
    have hfind : db.devices.find? (fun d => d.api_key == k) = none := by
      rw [List.find?_eq_none]
      intro d hd
      simpa using hnone d hd
    simp [get_device_from_api_key, hk, hfind]
  · intro k d hok
    simp only [get_device_from_api_key] at hok
    by_cases hk : k == ""
    · rw [if_pos hk] at hok
      exact Except.noConfusion hok
    · rw [if_neg hk] at hok
      cases hfind : db.devices.find? (fun d => d.api_key == k) with
      | none =>
        rw [hfind] at hok
        exact Except.noConfusion hok
      | some d2 =>
        rw [hfind] at hok
        injection hok with hd2
        subst hd2
        refine ⟨List.mem_of_find?_eq_some hfind, ?_⟩
        have := List.find?_some hfind
        simpa using this
  · intro key e herr
    rcases fuel_alert_cases mlt key sig up db with
      ⟨e2, hauth, heq⟩ | ⟨device, hauth, _⟩
    · rw [herr] at hauth
      injection hauth with he
      rw [he]
      exact heq
    · rw [herr] at hauth
      exact Except.noConfusion hauth

theorem C7_device_auth_failures_witness :
    get_device_from_api_key none sampleDB1 =
      .error (.unauthorized "Missing API key") ∧
    get_device_from_api_key (some "wrong") sampleDB1 =
      .error (.unauthorized "Invalid API key") ∧
    fuel_alert 0 none sampleSig (.ok []) sampleDB1 =
      (.error (.unauthorized "Missing API key"), sampleDB1) := by
  refine ⟨(C7_device_auth_failures 0 sampleSig (.ok []) sampleDB1).1,
    (C7_device_auth_failures 0 sampleSig (.ok []) sampleDB1).2.1 "wrong"
      (by decide) (by decide), ?_⟩
  exact (C7_device_auth_failures 0 sampleSig (.ok []) sampleDB1).2.2.2 none
    (.unauthorized "Missing API key") rfl

/-- C8: the places request asks for at most 5 results; the transformation
drops every feature missing its name or its coordinate pair, and for a
kept feature uses (name, lat, lon) with vicinity falling back to
"Address N/A" when the formatted address is absent; every produced target
comes from some kept feature. -/
theorem C8_places_transform (geoKey : Option String) :
    (∀ sig, (placesParams sig geoKey).limit = 5) ∧
    (∀ f : Feature, f.name = none ∨ f.coordinates = none →
        transformFeature f = none) ∧
    (∀ (f : Feature) (lon lat : ℚ) (n : String),
        f.coordinates = some (lon, lat) → f.name = some n → n ≠ "" →
        transformFeature f = some ⟨n, lat, lon, f.formatted.getD "Address N/A"⟩) ∧
    (∀ (f : Feature) (lon lat : ℚ) (n : String),
        f.coordinates = some (lon, lat) → f.name = some n → n ≠ "" →
        f.formatted = none →
        transformFeature f = some ⟨n, lat, lon, "Address N/A"⟩) ∧
    (∀ (feats : List Feature) (t : Target),
        t ∈ feats.filterMap transformFeature →
        ∃ f ∈ feats, transformFeature f = some t) := by
  refine ⟨fun _ => rfl, ?_, ?_, ?_, ?_⟩
  · rintro ⟨fname, ffmt, fcoords⟩ (hf | hf) <;> simp only at hf <;> subst hf
    · cases fcoords with
      | none => rfl
      | some p =>
        cases p
        rfl
    · cases fname with
      | none => rfl
      | some n => rfl
  · intro f lon lat n hc hn hne
    simp only [transformFeature, hc, hn]
    rw [if_neg (by simpa using hne)]
  · intro f lon lat n hc hn hne hfmt
    simp only [transformFeature, hc, hn, hfmt]
    rw [if_neg (by simpa using hne)]
    rfl
  · intro feats t ht
    exact List.mem_filterMap.mp ht

theorem C8_places_transform_witness :
    (placesParams sampleSig none).limit = 5 ∧
    transformFeature ⟨none, none, some (20, 10)⟩ = none ∧
    transformFeature ⟨some "Shell", none, none⟩ = none ∧
    transformFeature ⟨some "Shell", some "1 Main St", some (20, 10)⟩ =
      some ⟨"Shell", 10, 20, "1 Main St"⟩ ∧
    transformFeature sampleFeature = some sampleTarget := by
  refine ⟨(C8_places_transform none).1 sampleSig,
    (C8_places_transform none).2.1 _ (Or.inl rfl),
    (C8_places_transform none).2.1 _ (Or.inr rfl),
    (C8_places_transform none).2.2.1 _ 20 10 "Shell" rfl rfl (by decide),
    ?_⟩
  exact (C8_places_transform none).2.2.2.1 sampleFeature 20 10 "Shell"
    rfl rfl (by decide) rfl

/-- C9: for an authenticated user, the latest-signal endpoint returns 404
"No device linked to this user" when the user has no device, 404 "No
signals received yet" when the device has no SignalLog rows, and otherwise
one of the device's rows whose device-reported time is maximal (ORDER BY
time DESC LIMIT 1). -/
theorem C9_latest_signal (user : UserRec) (db : DB) :
    (db.devices.find? (fun d => d.user_id == user.id) = none →
        get_latest_signal user db =
          .error (.notFound "No device linked to this user")) ∧
    (∀ device,
        db.devices.find? (fun d => d.user_id == user.id) = some device →
        (signalsFor device.device_id db = [] →
            get_latest_signal user db =
              .error (.notFound "No signals received yet")) ∧
        (signalsFor device.device_id db ≠ [] →
            ∃ l, get_latest_signal user db = .ok l ∧
              l ∈ signalsFor device.device_id db ∧
              ∀ x ∈ signalsFor device.device_id db, x.time ≤ l.time)) := by
  constructor
  · intro hfind
    simp [get_latest_signal, hfind]
  · intro device hfind
    constructor
    · intro hempty
      have hpick : pickLatest (signalsFor device.device_id db) = none :=
        pickLatest_eq_none.mpr hempty
      simp [get_latest_signal, hfind, hpick]
    · intro hne
      cases hpick : pickLatest (signalsFor device.device_id db) with
      | none => exact absurd (pickLatest_eq_none.mp hpick) hne
      | some m =>
        obtain ⟨hmem, hmax⟩ := pickLatest_mem_max _ m hpick
        exact ⟨m, by simp [get_latest_signal, hfind, hpick], hmem, hmax⟩

theorem C9_latest_signal_witness :
    get_latest_signal ⟨7, "c@z.com", "argon2:x"⟩ sampleDB2 =
      .error (.notFound "No device linked to this user") ∧
    (∃ l, get_latest_signal sampleUser sampleDB2 = .ok l ∧
      l ∈ signalsFor "DEV_0001" sampleDB2 ∧
      ∀ x ∈ signalsFor "DEV_0001" sampleDB2, x.time ≤ l.time) := by
  refine ⟨(C9_latest_signal ⟨7, "c@z.com", "argon2:x"⟩ sampleDB2).1 (by decide), ?_⟩
  exact (C9_latest_signal sampleUser sampleDB2).2 sampleDevice (by decide) |>.2
    (by decide)

end CCLab
